import Mathlib

/-!
Shallow embedding of the Session Lifecycle & Output Synchronization Engine of
`claude-code-web/backend/app.py`: the dual-handle output reconciler
(`get_tmux_output`), the user-session and project-session output pollers
(`monitor_tmux_output`, `monitor_project_tmux_output`), the websocket join
handlers and their poller-handle registry (`handle_join`,
`handle_join_project`), the session creation routine (`create_tmux_session`),
the project-session health check (`get_or_create_project_session`), and the
project input forwarder (`send_to_project_tmux`).

Terminal-multiplexer state is modelled as a map from session name to pane
content; the pane content of a session is modelled as the concatenation of the
key lines sent to it since its creation.  Captured snapshots are plain strings
and enter the embedded functions as parameters, exactly where the Python code
reads `subprocess.run(...).stdout`.
-/

/-- The single-quote character, written by code point to keep source lines
free of quote characters. -/
def squote : Char := Char.ofNat 39

/-- The backslash character. -/
def bslash : Char := Char.ofNat 92

/-- One-character string holding a single quote. -/
def sqS : String := ⟨[squote]⟩

/-- Whitespace as Python's `str.strip` / `str.rstrip` treat it:
space, tab, newline, carriage return, vertical tab, form feed. -/
def isPySpace (c : Char) : Bool :=
  c = ' ' || c = Char.ofNat 9 || c = Char.ofNat 10 || c = Char.ofNat 13 ||
  c = Char.ofNat 11 || c = Char.ofNat 12

/-- Python `str.strip()`: drop leading and trailing whitespace. -/
def pyStrip (s : String) : String :=
  ⟨((s.data.dropWhile isPySpace).reverse.dropWhile isPySpace).reverse⟩

/-- Python `str.rstrip()`: drop trailing whitespace. -/
def pyRStrip (s : String) : String :=
  ⟨(s.data.reverse.dropWhile isPySpace).reverse⟩

/-- The fallback message `get_tmux_output` substitutes when the chosen
snapshot has fewer than 10 stripped characters (app.py lines 203-209). -/
def defaultWelcome : String :=
  "Bienvenue dans Claude Code Web\n\n" ++
  "Terminal interactif pour Claude Code\n" ++
  "--------------------------------------\n\n" ++
  "Prêt à recevoir vos commandes...\n" ++
  "Tapez votre message et appuyez sur Ctrl+Enter pour l" ++ sqS ++ "envoyer."

/-- Snapshot selection step of `get_tmux_output` (app.py lines 194-200):
keep the main capture when it is strictly longer after stripping,
otherwise keep the user (mirror) capture. -/
def selectOutput (main_output user_output : String) : String :=
  if (pyStrip main_output).length > (pyStrip user_output).length then main_output
  else user_output

/-- Success path of `get_tmux_output` (app.py lines 181-214), taking the two
raw captures (main session, then `claude_<session_id>`) as inputs: select the
longer capture, substitute the welcome message when the result is shorter than
10 stripped characters, and strip trailing whitespace. -/
def get_tmux_output (main_output user_output : String) : String :=
  let final_output := selectOutput main_output user_output
  let final_output := if (pyStrip final_output).length < 10 then defaultWelcome
                      else final_output
  pyRStrip final_output

/-- Exception path of `get_tmux_output` (app.py lines 216-219): the function
returns a formatted error message built around the exception text. -/
def get_tmux_output_error (e : String) : String :=
  "Erreur de connexion au terminal.\nDétails: " ++ e ++
  "\n\nRéessayez ou rechargez la page."

/-- Per-tick capture of `monitor_tmux_output` (app.py lines 283-290): capture
the main session raw, capture via `get_tmux_output`, and keep whichever is
longer (unstripped lengths, ties to the `get_tmux_output` result). -/
def monitor_capture (main_output user_raw : String) : String :=
  let user_output := get_tmux_output main_output user_raw
  if main_output.length > user_output.length then main_output else user_output

/-- The fallback message of `get_project_tmux_output` (app.py lines 954-955). -/
def projectWelcome (session_name : String) : String :=
  "Terminal du projet\n\nSession: " ++ session_name ++
  "\nPrêt à recevoir vos commandes...\n"

/-- Success path of `get_project_tmux_output` (app.py lines 945-957), taking
the raw capture as input: substitute the project welcome message when the
capture has fewer than 10 stripped characters, and strip trailing whitespace. -/
def get_project_tmux_output (session_name raw : String) : String :=
  let output := if (pyStrip raw).length < 10 then projectWelcome session_name
                else raw
  pyRStrip output

/-- Exception path of `get_project_tmux_output` (app.py lines 959-961). -/
def get_project_tmux_output_error (e : String) : String :=
  "Erreur de connexion au terminal du projet.\nDétails: " ++ e

/-- Does `hay` start with `pat`? (character-list level). -/
def startsWithChars : List Char → List Char → Bool
  | _, [] => true
  | [], _ :: _ => false
  | a :: as, b :: bs => a = b && startsWithChars as bs

/-- Does `pat` occur as a contiguous substring of the character list?
Models Python's `in` operator on strings. -/
def occursInChars (pat : List Char) : List Char → Bool
  | [] => pat.isEmpty
  | c :: rest => startsWithChars (c :: rest) pat || occursInChars pat rest

/-- Python `pat in hay` for strings. -/
def occursIn (hay pat : String) : Bool := occursInChars pat.data hay.data

/-- First liveness marker checked by `get_or_create_project_session`
(app.py line 666). -/
def livenessMarkerTry : String := "Try \"how do I log an error?\""

/-- Second liveness marker checked by `get_or_create_project_session`
(app.py line 666). -/
def livenessMarkerCwd : String := "cwd:"

/-- The liveness condition of app.py line 666: the assistant is considered
active when the captured snapshot contains either marker string. -/
def claudeCodeActive (output : String) : Bool :=
  occursIn output livenessMarkerTry || occursIn output livenessMarkerCwd

/-- Launch command for the interactive assistant (app.py lines 164, 680, 713). -/
def launchKeys : String := "/root/.npm-global/bin/claude"

/-- One multiplexer command issued by the backend: session creation, key
input (target session, key line), session kill, or a fixed settle delay
(`time.sleep`) in seconds. -/
inductive TmuxCmd where
  | newSession (name : String)
  | sendKeys (target : String) (keys : String)
  | killSession (name : String)
  | settle (secs : Nat)
deriving DecidableEq

/-- Is this command the assistant launch command? -/
def isLaunchCmd : TmuxCmd → Bool
  | .sendKeys _ keys => decide (keys = launchKeys)
  | _ => false

/-- Is this command a session kill? -/
def isKillCmd : TmuxCmd → Bool
  | .killSession _ => true
  | _ => false

/-- Backing multiplexer session name of a project (app.py line 653). -/
def projectSessionName (project_id : String) : String :=
  "claude_project_" ++ project_id

/-- Filesystem path of a project (app.py line 668). -/
def projectPath (project_id : String) : String :=
  "/root/docker/apps/" ++ project_id

/-- Relaunch commands of `get_or_create_project_session` when the session
exists but the liveness markers are absent (app.py lines 667-681):
environment setup, the optional CLAUDE.md context export, the launch
command, then the 3-second settle delay. -/
def relaunchCmds (project_id : String) (claude_md_exists : Bool) : List TmuxCmd :=
  let session_name := projectSessionName project_id
  let project_path := projectPath project_id
  [TmuxCmd.sendKeys session_name ("cd " ++ project_path),
   TmuxCmd.sendKeys session_name ("export PROJECT_NAME=" ++ project_id),
   TmuxCmd.sendKeys session_name ("export PROJECT_PATH=" ++ project_path)] ++
  (if claude_md_exists then
     [TmuxCmd.sendKeys session_name
       ("export CLAUDE_PROJECT_CONTEXT=\"" ++ project_path ++ "/CLAUDE.md\"")]
   else []) ++
  [TmuxCmd.sendKeys session_name launchKeys, TmuxCmd.settle 3]

/-- Health-check branch of `get_or_create_project_session` for an existing
backing session (app.py lines 660-682): given the captured snapshot, issue the
relaunch command sequence when the liveness markers are absent, nothing
otherwise. -/
def project_health_check (project_id captured : String)
    (claude_md_exists : Bool) : List TmuxCmd :=
  if claudeCodeActive captured then [] else relaunchCmds project_id claude_md_exists

/-- Creation branch of `get_or_create_project_session` for a missing backing
session (app.py lines 691-718): create the session, set up the environment,
clear, launch the assistant and settle. -/
def create_project_cmds (project_id : String) (claude_md_exists : Bool) : List TmuxCmd :=
  let session_name := projectSessionName project_id
  let project_path := projectPath project_id
  [TmuxCmd.newSession session_name,
   TmuxCmd.sendKeys session_name ("cd " ++ project_path),
   TmuxCmd.sendKeys session_name ("export PROJECT_NAME=" ++ project_id),
   TmuxCmd.sendKeys session_name ("export PROJECT_PATH=" ++ project_path)] ++
  (if claude_md_exists then
     [TmuxCmd.sendKeys session_name
       ("export CLAUDE_PROJECT_CONTEXT=\"" ++ project_path ++ "/CLAUDE.md\"")]
   else []) ++
  [TmuxCmd.sendKeys session_name "clear",
   TmuxCmd.sendKeys session_name launchKeys,
   TmuxCmd.settle 3, TmuxCmd.settle 2]

/-- Multiplexer server state: the list of live sessions, each with its pane
content.  Pane content is modelled as the concatenation of the key lines sent
to the session since it was created. -/
structure TmuxState where
  sessions : List (String × String)
deriving DecidableEq

/-- First binding of a key in an association list. -/
def lookupKey {α : Type} : List (String × α) → String → Option α
  | [], _ => none
  | (k, v) :: rest, key => if k = key then some v else lookupKey rest key

/-- Does the multiplexer have a session of this name? (`tmux has-session`). -/
def hasSessionSt (st : TmuxState) (name : String) : Bool :=
  (lookupKey st.sessions name).isSome

/-- Remove every entry of the given session name. -/
def removeSession (name : String) : List (String × String) → List (String × String)
  | [] => []
  | (k, v) :: rest =>
    if k = name then removeSession name rest else (k, v) :: removeSession name rest

/-- Kill a session (`tmux kill-session`); killing an absent session is a
no-op, as with the `|| true` guards in app.py. -/
def killSessionSt (st : TmuxState) (name : String) : TmuxState :=
  ⟨removeSession name st.sessions⟩

/-- Create a detached session (`tmux new-session -d`); creating over an
existing name fails and leaves the server unchanged. -/
def newSessionSt (st : TmuxState) (name : String) : TmuxState :=
  if hasSessionSt st name then st else ⟨st.sessions ++ [(name, "")]⟩

/-- Append one key line to the pane content of the named session. -/
def appendContent (name keys : String) : List (String × String) → List (String × String)
  | [] => []
  | (k, v) :: rest =>
    if k = name then (k, v ++ keys ++ "\n") :: appendContent name keys rest
    else (k, v) :: appendContent name keys rest

/-- Send one key line to a session (`tmux send-keys ... C-m`): appends the
line to the pane content of the target, if present. -/
def sendKeysSt (st : TmuxState) (name keys : String) : TmuxState :=
  ⟨appendContent name keys st.sessions⟩

/-- Captured content of a session; the empty string when the session is
absent (`tmux capture-pane` writes nothing to stdout then). -/
def captureContent (st : TmuxState) (name : String) : String :=
  (lookupKey st.sessions name).getD ""

/-- The shared main session name every user session reads
(app.py lines 124, 137, 185, 265, 283). -/
def mainSession : String := "claude-code-session"

/-- Name of the per-user mirror session (app.py lines 125, 160, 190). -/
def userSession (session_id : String) : String := "claude_" ++ session_id

/-- The key lines `create_tmux_session` sends to the freshly created main
session before the mirror session is attached (app.py lines 143-153). -/
def welcomeKeys : List String :=
  ["clear",
   "echo \"\\033[1;32mBienvenue dans Claude Code Web!\\033[0m\"",
   "echo \"\\033[1;36mTerminal interactif pour Claude Code\\033[0m\"",
   "echo \"-------------------------------------\"",
   "echo \"\"",
   "export PATH=/root/.npm-global/bin:$PATH",
   "cd /root/docker",
   "ls -la",
   "echo \"\"",
   "echo \"\\033[1;33mPrêt à utiliser Claude Code...\\033[0m\"",
   "echo \"\\033[0;37mTapez votre question ou commande ci-dessous:\\033[0m\""]

/-- The routine `create_tmux_session` (app.py lines 117-179) as a transformer
of multiplexer state: kill the main session and the caller's mirror session,
recreate the main session, send the welcome key lines, attach the mirror
session (grouped to the main one), send the final blank echo and the
assistant launch command to the main session, and send the screen-sync
keystroke to the mirror.  The history-limit option and sleeps do not change
pane content and are not modelled. -/
def create_tmux_session (session_id : String) (st : TmuxState) : TmuxState :=
  let st := killSessionSt st mainSession
  let st := killSessionSt st (userSession session_id)
  let st := newSessionSt st mainSession
  let st := welcomeKeys.foldl (fun s k => sendKeysSt s mainSession k) st
  let st := newSessionSt st (userSession session_id)
  let st := sendKeysSt st mainSession "echo \"\""
  let st := sendKeysSt st mainSession launchKeys
  sendKeysSt st (userSession session_id) " C-h"

/-- Pane content of the main session right after `create_tmux_session`:
the welcome key lines, the blank echo, and the launch command, one per line. -/
def mainSetupContent : String :=
  (welcomeKeys.foldl (fun acc k => acc ++ k ++ "\n") "") ++
  "echo \"\"" ++ "\n" ++ launchKeys ++ "\n"

/-- The raw main-handle capture both `monitor_tmux_output` (app.py line 283)
and `get_tmux_output` (line 185) read for a user session: the target name is
the constant `claude-code-session`, whatever the session id is. -/
def monitor_main_capture (st : TmuxState) (_session_id : String) : String :=
  captureContent st mainSession

/-- Escaping of `send_to_tmux` / `send_to_project_tmux` (app.py lines 224,
967): Python `command.replace(squote, squote backslash squote squote)`,
character-list level. -/
def escSQ : List Char → List Char
  | [] => []
  | c :: cs => (if c = squote then [squote, bslash, squote, squote] else [c]) ++ escSQ cs

/-- String-level escaping of app.py lines 224 and 967. -/
def escapeQuotes (command : String) : String := ⟨escSQ command.data⟩

/-- The shell command line `send_to_project_tmux` builds (app.py line 970):
`tmux send-keys -t <name> <squote><escaped command> C-m<squote> C-m`. -/
def send_to_project_tmux (session_name command : String) : String :=
  let escaped_command := escapeQuotes command
  "tmux send-keys -t " ++ session_name ++ " " ++ sqS ++ escaped_command ++
  " C-m" ++ sqS ++ " C-m"

/-- POSIX-style word splitting for the command lines this backend builds:
single quotes group, backslash escapes the next character outside quotes,
unquoted spaces separate words.  `acc` is the word accumulated so far, `inQ`
tells whether the scanner is inside single quotes, and `esc` whether the
previous character was an unquoted backslash. -/
def shellSplit (acc : List Char) (inQ esc : Bool) : List Char → List (List Char)
  | [] => if acc.isEmpty then [] else [acc]
  | c :: cs =>
    if esc then shellSplit (acc ++ [c]) inQ false cs
    else if inQ then
      if c = squote then shellSplit acc false false cs
      else shellSplit (acc ++ [c]) true false cs
    else if c = squote then shellSplit acc true false cs
    else if c = bslash then shellSplit acc false true cs
    else if c = ' ' then
      (if acc.isEmpty then [] else [acc]) ++ shellSplit [] false false cs
    else shellSplit (acc ++ [c]) false false cs

/-- The argument words the shell hands to the multiplexer binary for a
command line. -/
def shellWords (cmd : String) : List String :=
  (shellSplit [] false false cmd.data).map (fun l => ⟨l⟩)

/-- Server-side realtime state: the session registry `active_sessions`
(app.py line 67, session ids), the poller-handle registry `output_threads`
(line 68, keyed by session id or project session name, holding the client sid
the poller was started for), and the socket rooms (room name to members). -/
structure ServerState where
  active_sessions : List String
  output_threads : List (String × String)
  rooms : List (String × List String)
deriving DecidableEq

/-- The server state at startup. -/
def emptyServer : ServerState := ⟨[], [], []⟩

/-- Add a member to a room (`join_room`); joining twice is idempotent. -/
def addToRoom : List (String × List String) → String → String → List (String × List String)
  | [], room, member => [(room, [member])]
  | (r, ms) :: rest, room, member =>
    if r = room then (r, if member ∈ ms then ms else ms ++ [member]) :: rest
    else (r, ms) :: addToRoom rest room member

/-- The `join` handler (app.py lines 780-824) after token verification, as a
transformer of server state: register the session if new (the tmux side is
`create_tmux_session`, modelled separately), join the room named by the
client's own sid (line 809), and start a monitor thread recorded in
`output_threads` under the session id — bound to this client's sid — unless
one is already recorded (lines 818-824). -/
def handle_join (st : ServerState) (session_id client_sid : String) : ServerState :=
  let st := if session_id ∈ st.active_sessions then st
            else { st with active_sessions := st.active_sessions ++ [session_id] }
  let st := { st with rooms := addToRoom st.rooms client_sid client_sid }
  if (lookupKey st.output_threads session_id).isSome then st
  else { st with output_threads := st.output_threads ++ [(session_id, client_sid)] }

/-- The `join_project` handler (app.py lines 857-901) after token and project
checks: join the room `project_<project_id>` (line 880) and start a project
monitor recorded under the backing session name unless one is already
recorded (lines 895-901). -/
def handle_join_project (st : ServerState) (project_id client_sid : String) : ServerState :=
  let st := { st with rooms := addToRoom st.rooms ("project_" ++ project_id) client_sid }
  let name := projectSessionName project_id
  if (lookupKey st.output_threads name).isSome then st
  else { st with output_threads := st.output_threads ++ [(name, client_sid)] }

/-- The connections that receive a `tmux_output` broadcast for a user
session: `monitor_tmux_output` emits with `to=client_id` (app.py lines
271-274, 295-298) where `client_id` is the sid stored when the poller thread
was started, so the recipients are the members of the room named by that sid. -/
def tmux_output_recipients (st : ServerState) (session_id : String) : List String :=
  match lookupKey st.output_threads session_id with
  | some sid => (lookupKey st.rooms sid).getD []
  | none => []

/-- The connections that receive an `output` broadcast for a project session:
`monitor_project_tmux_output` emits to the room `project_<project_id>`
(app.py lines 1000-1004). -/
def project_output_recipients (st : ServerState) (project_id : String) : List String :=
  (lookupKey st.rooms ("project_" ++ project_id)).getD []

/-- Occurrences of a key in the poller-handle registry. -/
def countKey {α : Type} (key : String) (l : List (String × α)) : Nat :=
  l.countP (fun p => decide (p.1 = key))

/-- Environment of one tick of `monitor_tmux_output`: whether the session id
is still in `active_sessions` when the `while` condition runs, and the raw
captures of the tick (`none` models an exception inside the loop body, which
the handler logs before a 1-second backoff). -/
structure UserTick where
  registered : Bool
  capture : Option (String × String)
deriving DecidableEq

/-- The polling loop of `monitor_tmux_output` (app.py lines 280-311) over a
finite trace of tick environments.  Returns the list of broadcast snapshots
and whether the loop exited within the trace.  `last` is the last broadcast
snapshot. -/
def user_poller_loop (last : String) : List UserTick → List String × Bool
  | [] => ([], false)
  | t :: rest =>
    if t.registered then
      match t.capture with
      | none => user_poller_loop last rest
      | some (m, u) =>
        let current := monitor_capture m u
        if current = last then user_poller_loop last rest
        else
          let r := user_poller_loop current rest
          (current :: r.1, r.2)
    else ([], true)

/-- The whole of `monitor_tmux_output` on its error-free path (app.py lines
262-311): broadcast the initial capture immediately, then run the polling
loop with the initial capture as last broadcast snapshot. -/
def monitor_run (first : String × String) (ticks : List UserTick) : List String :=
  let current := monitor_capture first.1 first.2
  current :: (user_poller_loop current ticks).1

/-- Environment of one tick of `monitor_project_tmux_output`: whether the
backing name is still in the `project_sessions` registry (never read by the
loop), the result of the `tmux has-session` probe (`none` models the probe
call raising), and the raw capture (`none` models an exception later in the
body). -/
structure ProjTick where
  inRegistry : Bool
  probe : Option Bool
  capture : Option String
deriving DecidableEq

/-- The polling loop of `monitor_project_tmux_output` (app.py lines 985-1013)
over a finite trace of tick environments: break when the `has-session` probe
reports the backing session gone, swallow exceptions with a backoff,
broadcast when the captured output changed.  Returns the broadcast snapshots
and whether the loop exited within the trace. -/
def project_poller_loop (session_name : String) (prev : String) :
    List ProjTick → List String × Bool
  | [] => ([], false)
  | t :: rest =>
    match t.probe with
    | none => project_poller_loop session_name prev rest
    | some false => ([], true)
    | some true =>
      match t.capture with
      | none => project_poller_loop session_name prev rest
      | some raw =>
        let current := get_project_tmux_output session_name raw
        if current = prev then project_poller_loop session_name prev rest
        else
          let r := project_poller_loop session_name current rest
          (current :: r.1, r.2)

set_option maxRecDepth 100000

/-! ## Helper lemmas -/

theorem strMkData (s : String) : (⟨s.data⟩ : String) = s := by cases s; rfl

theorem userSession_ne_main (session_id : String) : userSession session_id ≠ mainSession := by
  intro h
  have h2 := congrArg String.data h
  rw [userSession, String.data_append] at h2
  simp [mainSession] at h2

theorem lookupKey_append_self {α : Type} (l : List (String × α)) (k : String) (v : α)
    (h : lookupKey l k = none) : lookupKey (l ++ [(k, v)]) k = some v := by
  induction l with
  | nil => simp [lookupKey]
  | cons p rest ih =>
    cases p with
    | mk k' v' =>
      rw [lookupKey] at h
      by_cases hk : k' = k
      · simp [hk] at h
      · rw [List.cons_append, lookupKey, if_neg hk]
        rw [if_neg hk] at h
        exact ih h

theorem lookupKey_append_ne {α : Type} (l : List (String × α)) (k : String) (v : α)
    (n' : String) (h : n' ≠ k) : lookupKey (l ++ [(k, v)]) n' = lookupKey l n' := by
  induction l with
  | nil => simp [lookupKey, Ne.symm h]
  | cons p rest ih =>
    cases p with
    | mk k' v' =>
      by_cases hk : k' = n'
      · simp [lookupKey, hk]
      · simp [lookupKey, hk, ih]

theorem lookup_kill_self (st : TmuxState) (n : String) :
    lookupKey (killSessionSt st n).sessions n = none := by
  cases st with
  | mk l =>
    show lookupKey (removeSession n l) n = none
    induction l with
    | nil => rfl
    | cons p rest ih =>
      obtain ⟨k', v⟩ := p
      rw [removeSession]
      by_cases hk : k' = n
      · rw [if_pos hk]; exact ih
      · rw [if_neg hk, lookupKey, if_neg hk]; exact ih

theorem lookup_kill_other (st : TmuxState) (n n' : String) (h : n' ≠ n) :
    lookupKey (killSessionSt st n).sessions n' = lookupKey st.sessions n' := by
  cases st with
  | mk l =>
    show lookupKey (removeSession n l) n' = lookupKey l n'
    induction l with
    | nil => rfl
    | cons p rest ih =>
      obtain ⟨k', v⟩ := p
      rw [removeSession]
      by_cases hk : k' = n
      · have hk2 : ¬ (k' = n') := by rw [hk]; exact Ne.symm h
        rw [if_pos hk, lookupKey, if_neg hk2]; exact ih
      · by_cases hk3 : k' = n'
        · rw [if_neg hk, lookupKey, if_pos hk3, lookupKey, if_pos hk3]
        · rw [if_neg hk, lookupKey, if_neg hk3, lookupKey, if_neg hk3]; exact ih

theorem lookup_newSession_self (st : TmuxState) (n : String)
    (h : lookupKey st.sessions n = none) :
    lookupKey (newSessionSt st n).sessions n = some "" := by
  unfold newSessionSt hasSessionSt
  rw [h]
  simp
  exact lookupKey_append_self _ _ _ h

theorem lookup_newSession_other (st : TmuxState) (n n' : String) (h : n' ≠ n) :
    lookupKey (newSessionSt st n).sessions n' = lookupKey st.sessions n' := by
  unfold newSessionSt
  by_cases hs : hasSessionSt st n
  · simp [hs]
  · simp [hs]
    exact lookupKey_append_ne _ _ _ _ h

theorem lookup_sendKeys_self (st : TmuxState) (n k : String) :
    lookupKey (sendKeysSt st n k).sessions n =
      (lookupKey st.sessions n).map (fun c => c ++ k ++ "\n") := by
  cases st with
  | mk l =>
    show lookupKey (appendContent n k l) n = _
    induction l with
    | nil => rfl
    | cons p rest ih =>
      obtain ⟨k', v⟩ := p
      rw [appendContent]
      by_cases hk : k' = n
      · rw [if_pos hk, lookupKey, if_pos hk]
        show _ = Option.map _ (lookupKey ((k', v) :: rest) n)
        rw [lookupKey, if_pos hk]
        rfl
      · rw [if_neg hk, lookupKey, if_neg hk]
        show _ = Option.map _ (lookupKey ((k', v) :: rest) n)
        rw [lookupKey, if_neg hk]
        exact ih

theorem lookup_sendKeys_other (st : TmuxState) (n k n' : String) (h : n' ≠ n) :
    lookupKey (sendKeysSt st n k).sessions n' = lookupKey st.sessions n' := by
  cases st with
  | mk l =>
    show lookupKey (appendContent n k l) n' = lookupKey l n'
    induction l with
    | nil => rfl
    | cons p rest ih =>
      obtain ⟨k', v⟩ := p
      rw [appendContent]
      by_cases hk : k' = n
      · have hk2 : ¬ (k' = n') := by rw [hk]; exact Ne.symm h
        rw [if_pos hk, lookupKey, if_neg hk2, lookupKey, if_neg hk2]; exact ih
      · by_cases hk3 : k' = n'
        · rw [if_neg hk, lookupKey, if_pos hk3, lookupKey, if_pos hk3]
        · rw [if_neg hk, lookupKey, if_neg hk3, lookupKey, if_neg hk3]; exact ih

theorem lookup_fold_sendKeys (keys : List String) (st : TmuxState) :
    lookupKey ((keys.foldl (fun s k => sendKeysSt s mainSession k) st).sessions) mainSession =
      (lookupKey st.sessions mainSession).map
        (fun c => keys.foldl (fun acc k => acc ++ k ++ "\n") c) := by
  induction keys generalizing st with
  | nil => simp
  | cons k t ih =>
    rw [List.foldl_cons, ih, lookup_sendKeys_self]
    cases lookupKey st.sessions mainSession <;> simp

theorem lookup_fold_sendKeys_other (keys : List String) (st : TmuxState) (n' : String)
    (h : n' ≠ mainSession) :
    lookupKey ((keys.foldl (fun s k => sendKeysSt s mainSession k) st).sessions) n' =
      lookupKey st.sessions n' := by
  induction keys generalizing st with
  | nil => rfl
  | cons k t ih =>
    rw [List.foldl_cons, ih, lookup_sendKeys_other _ _ _ _ h]

theorem create_resets_main (session_id : String) (st : TmuxState) :
    captureContent (create_tmux_session session_id st) mainSession = mainSetupContent := by
  have hmu : mainSession ≠ userSession session_id :=
    Ne.symm (userSession_ne_main session_id)
  have h1 : lookupKey (killSessionSt (killSessionSt st mainSession)
      (userSession session_id)).sessions mainSession = none := by
    rw [lookup_kill_other _ _ _ hmu]
    exact lookup_kill_self _ _
  simp only [create_tmux_session, captureContent]
  rw [lookup_sendKeys_other _ _ _ _ hmu,
      lookup_sendKeys_self, lookup_sendKeys_self,
      lookup_newSession_other _ _ _ hmu,
      lookup_fold_sendKeys,
      lookup_newSession_self _ _ h1]
  rfl

theorem create_has_mirror (session_id : String) (st : TmuxState) :
    hasSessionSt (create_tmux_session session_id st) (userSession session_id) = true := by
  have hum := userSession_ne_main session_id
  have h3 : lookupKey ((welcomeKeys.foldl (fun s k => sendKeysSt s mainSession k)
      (newSessionSt (killSessionSt (killSessionSt st mainSession)
        (userSession session_id)) mainSession)).sessions) (userSession session_id) = none := by
    rw [lookup_fold_sendKeys_other _ _ _ hum,
        lookup_newSession_other _ _ _ hum]
    exact lookup_kill_self _ _
  have h4 := lookup_newSession_self _ _ h3
  simp only [create_tmux_session, hasSessionSt]
  rw [lookup_sendKeys_self,
      lookup_sendKeys_other _ _ _ _ hum,
      lookup_sendKeys_other _ _ _ _ hum,
      h4]
  rfl

theorem cd_ne_launch (x : String) : ¬ ("cd " ++ x = launchKeys) := by
  intro h
  have h2 := congrArg String.data h
  rw [String.data_append] at h2
  simp [launchKeys] at h2

theorem export_name_ne_launch (x : String) : ¬ ("export PROJECT_NAME=" ++ x = launchKeys) := by
  intro h
  have h2 := congrArg String.data h
  rw [String.data_append] at h2
  simp [launchKeys] at h2

theorem export_path_ne_launch (x : String) : ¬ ("export PROJECT_PATH=" ++ x = launchKeys) := by
  intro h
  have h2 := congrArg String.data h
  rw [String.data_append] at h2
  simp [launchKeys] at h2

theorem export_ctx_ne_launch (x y : String) :
    ¬ ("export CLAUDE_PROJECT_CONTEXT=\"" ++ x ++ y = launchKeys) := by
  intro h
  have h2 := congrArg String.data h
  rw [String.data_append, String.data_append] at h2
  simp [launchKeys] at h2

theorem shellSplit_plain (w : List Char)
    (hw : ∀ c ∈ w, ¬ c = squote ∧ ¬ c = bslash ∧ ¬ c = ' ') :
    ∀ (acc rest : List Char),
      shellSplit acc false false (w ++ rest) = shellSplit (acc ++ w) false false rest := by
  induction w with
  | nil => intro acc rest; simp
  | cons c t ih =>
    intro acc rest
    obtain ⟨h1, h2, h3⟩ := hw c (List.mem_cons_self c t)
    have ht : ∀ x ∈ t, ¬ x = squote ∧ ¬ x = bslash ∧ ¬ x = ' ' :=
      fun x hx => hw x (List.mem_cons_of_mem _ hx)
    rw [List.cons_append, shellSplit, if_neg Bool.false_ne_true, if_neg Bool.false_ne_true,
        if_neg h1, if_neg h2, if_neg h3, ih ht (acc ++ [c]) rest, List.append_assoc]
    rfl

theorem shellSplit_quoted (w : List Char) (hw : ∀ c ∈ w, ¬ c = squote) :
    ∀ (acc rest : List Char),
      shellSplit acc true false (w ++ rest) = shellSplit (acc ++ w) true false rest := by
  induction w with
  | nil => intro acc rest; simp
  | cons c t ih =>
    intro acc rest
    have h1 := hw c (List.mem_cons_self c t)
    have ht : ∀ x ∈ t, ¬ x = squote := fun x hx => hw x (List.mem_cons_of_mem _ hx)
    rw [List.cons_append, shellSplit, if_neg Bool.false_ne_true, if_pos rfl,
        if_neg h1, ih ht (acc ++ [c]) rest, List.append_assoc]
    rfl

theorem shellSplit_escSQ (l : List Char) :
    ∀ (acc rest : List Char),
      shellSplit acc true false (escSQ l ++ rest) = shellSplit (acc ++ l) true false rest := by
  induction l with
  | nil => intro acc rest; simp [escSQ]
  | cons c t ih =>
    intro acc rest
    by_cases hc : c = squote
    · subst hc
      show shellSplit acc true false
        ((squote :: bslash :: squote :: squote :: escSQ t) ++ rest) = _
      rw [List.cons_append, shellSplit, if_neg Bool.false_ne_true, if_pos rfl, if_pos rfl]
      rw [List.cons_append, shellSplit, if_neg Bool.false_ne_true, if_neg Bool.false_ne_true,
          if_neg (by decide : ¬ (bslash = squote)), if_pos rfl]
      rw [List.cons_append, shellSplit, if_pos rfl]
      rw [List.cons_append, shellSplit, if_neg Bool.false_ne_true, if_neg Bool.false_ne_true,
          if_pos rfl]
      rw [ih (acc ++ [squote]) rest, List.append_assoc]
      rfl
    · rw [escSQ, if_neg hc, List.singleton_append, List.cons_append, shellSplit,
          if_neg Bool.false_ne_true, if_pos rfl, if_neg hc,
          ih (acc ++ [c]) rest, List.append_assoc]
      rfl

theorem shellSplit_openq (acc : List Char) (cs : List Char) :
    shellSplit acc false false (squote :: cs) = shellSplit acc true false cs := by
  rw [shellSplit, if_neg Bool.false_ne_true, if_neg Bool.false_ne_true, if_pos rfl]

theorem shellSplit_closeq (acc : List Char) (cs : List Char) :
    shellSplit acc true false (squote :: cs) = shellSplit acc false false cs := by
  rw [shellSplit, if_neg Bool.false_ne_true, if_pos rfl, if_pos rfl]

theorem shellSplit_space (acc cs : List Char) (h : acc ≠ []) :
    shellSplit acc false false (' ' :: cs) = [acc] ++ shellSplit [] false false cs := by
  have h3 : ¬ (acc.isEmpty = true) := by simp [h]
  rw [shellSplit, if_neg Bool.false_ne_true, if_neg Bool.false_ne_true,
      if_neg (by decide : ¬ ((' ' : Char) = squote)),
      if_neg (by decide : ¬ ((' ' : Char) = bslash)), if_pos rfl, if_neg h3]

theorem shellSplit_prefix (rest : List Char) :
    shellSplit [] false false ("tmux send-keys -t ".data ++ rest) =
      ["tmux".data, "send-keys".data, "-t".data] ++ shellSplit [] false false rest := by
  have hd2 : "tmux send-keys -t ".data ++ rest =
      "tmux".data ++ (' ' :: ("send-keys".data ++ (' ' :: ("-t".data ++ (' ' :: rest))))) := by
    have h0 : ("tmux send-keys -t ".data : List Char) =
        "tmux".data ++ (' ' :: ("send-keys".data ++ (' ' :: ("-t".data ++ [' '])))) := by decide
    rw [h0]
    simp
  rw [hd2]
  rw [shellSplit_plain "tmux".data (by decide) [] _]
  rw [List.nil_append]
  rw [shellSplit_space _ _ (by decide)]
  rw [shellSplit_plain "send-keys".data (by decide) [] _]
  rw [List.nil_append]
  rw [shellSplit_space _ _ (by decide)]
  rw [shellSplit_plain "-t".data (by decide) [] _]
  rw [List.nil_append]
  rw [shellSplit_space _ _ (by decide)]
  simp

/-! ## Claim theorems -/

/-- Claim C1, counterexample: with equal-length trimmed snapshots
(main `"AAAAA"`, mirror `"CCCCC"`) the selection step of `get_tmux_output`
returns the mirror snapshot, not the main one as the claim states. -/
theorem selectOutput_tie_counterexample :
    selectOutput "AAAAA" "CCCCC" = "CCCCC" ∧ selectOutput "AAAAA" "CCCCC" ≠ "AAAAA" := by
  constructor
  · decide
  · decide

/-- Claim C1, amended: the reconciliation step selects the main snapshot
exactly when it is strictly longer after trimming, and otherwise — including
every tie — returns the mirror (user) snapshot. -/
theorem selectOutput_longer_ties_mirror (main_output user_output : String) :
    ((pyStrip main_output).length > (pyStrip user_output).length →
      selectOutput main_output user_output = main_output) ∧
    ((pyStrip main_output).length ≤ (pyStrip user_output).length →
      selectOutput main_output user_output = user_output) := by
  unfold selectOutput
  constructor
  · intro h; rw [if_pos h]
  · intro h; rw [if_neg (by omega)]

/-- Claim C1, witness: the strictly-longer mirror `"AAAAAAAAAA"` is selected
over main `"AAAAA"`, and a strictly-longer main is selected over the mirror. -/
theorem selectOutput_longer_ties_mirror_witness :
    selectOutput "AAAAA" "AAAAAAAAAA" = "AAAAAAAAAA" ∧
    selectOutput "0123456789x" "ab" = "0123456789x" :=
  ⟨(selectOutput_longer_ties_mirror "AAAAA" "AAAAAAAAAA").2 (by decide),
   (selectOutput_longer_ties_mirror "0123456789x" "ab").1 (by decide)⟩

/-- Claim C3, counterexample: when both raw captures are empty (the target
session does not exist), `get_tmux_output` returns the non-empty welcome
placeholder, not the empty string the claim requires. -/
theorem capture_failure_counterexample :
    get_tmux_output "" "" = defaultWelcome ∧ defaultWelcome ≠ "" := by
  constructor
  · decide
  · decide

/-- Claim C3, amended: on capture failure the functions return a fixed
non-empty error-description text, and on a missing session (empty raw
captures) they return the fixed non-empty welcome or project placeholder —
never the empty string. -/
theorem capture_fallbacks_nonempty (e ep : String) :
    get_tmux_output "" "" = defaultWelcome ∧
    0 < defaultWelcome.length ∧
    0 < (get_tmux_output_error e).length ∧
    0 < (get_project_tmux_output_error ep).length ∧
    0 < (get_project_tmux_output "claude_project_demo" "").length := by
  refine ⟨by decide, by decide, ?_, ?_, by decide⟩
  · have h1 : 0 < ("Erreur de connexion au terminal.\nDétails: " : String).length := by decide
    simp [get_tmux_output_error, String.length_append]
    omega
  · have h1 : 0 < ("Erreur de connexion au terminal du projet.\nDétails: " : String).length := by
      decide
    simp [get_project_tmux_output_error, String.length_append]
    omega

/-- Claim C2, counterexample: after two clients `"c1"` and `"c2"` join the
same user session `"s1"`, the poller's `tmux_output` broadcast reaches only
`"c1"` (the client whose sid was stored when the poller thread started);
`"c2"` is not among the recipients. -/
theorem user_broadcast_misses_second_client :
    tmux_output_recipients (handle_join (handle_join emptyServer "s1" "c1") "s1" "c2") "s1"
      = ["c1"] ∧
    "c2" ∉ tmux_output_recipients
      (handle_join (handle_join emptyServer "s1" "c1") "s1" "c2") "s1" := by
  constructor
  · decide
  · decide

/-- Claim C2, amended: user-session rooms are keyed by the connection sid and
the user-session poller emits each `tmux_output` only to the room of the
first joiner's sid, so a second client joined to the same user session
receives nothing from the poller; project-session broadcasts go to the room
`project_<project_id>` and reach every joined client. -/
theorem tmux_output_to_first_joiner_only (s p c1 c2 : String) (h : c1 ≠ c2) :
    tmux_output_recipients (handle_join (handle_join emptyServer s c1) s c2) s = [c1] ∧
    project_output_recipients
      (handle_join_project (handle_join_project emptyServer p c1) p c2) p = [c1, c2] := by
  have h' : c2 ≠ c1 := Ne.symm h
  constructor
  · simp [handle_join, emptyServer, addToRoom, lookupKey, tmux_output_recipients, h, h']
  · simp [handle_join_project, emptyServer, addToRoom, lookupKey,
          project_output_recipients, h, h']

/-- Claim C2, witness: the amended statement at the concrete clients
`"c1"`, `"c2"`, user session `"s1"` and project `"p1"`. -/
theorem tmux_output_to_first_joiner_only_witness :
    tmux_output_recipients (handle_join (handle_join emptyServer "s1" "c1") "s1" "c2") "s1"
      = ["c1"] ∧
    project_output_recipients
      (handle_join_project (handle_join_project emptyServer "p1" "c1") "p1" "c2") "p1"
      = ["c1", "c2"] :=
  tmux_output_to_first_joiner_only "s1" "p1" "c1" "c2" (by decide)

/-- Claim C4, counterexample: starting from a server that already has the
main session with content `"OLD CONTENT"`, `create_tmux_session` does not
leave the existing session intact — its content afterwards differs from
`"OLD CONTENT"` (the session was killed and recreated), with no
AlreadyExists report. -/
theorem create_destroys_existing_session :
    captureContent (create_tmux_session "u1" ⟨[(mainSession, "OLD CONTENT")]⟩) mainSession
      ≠ "OLD CONTENT" ∧
    hasSessionSt (⟨[(mainSession, "OLD CONTENT")]⟩ : TmuxState) mainSession = true := by
  constructor
  · decide
  · decide

/-- Claim C4, amended: user-session creation always kills and recreates the
shared main session (its content afterwards is the fixed setup content,
whatever existed before) and recreates the caller's mirror session; only the
project-session code paths never issue a kill, so only there an existing
same-named session survives. -/
theorem create_always_replaces (st : TmuxState)
    (session_id project_id captured : String) (b : Bool) :
    captureContent (create_tmux_session session_id st) mainSession = mainSetupContent ∧
    hasSessionSt (create_tmux_session session_id st) (userSession session_id) = true ∧
    (project_health_check project_id captured b).countP isKillCmd = 0 ∧
    (create_project_cmds project_id b).countP isKillCmd = 0 := by
  refine ⟨create_resets_main session_id st, create_has_mirror session_id st, ?_, ?_⟩
  · cases hc : claudeCodeActive captured <;> cases b <;>
      simp [project_health_check, relaunchCmds, isKillCmd, hc,
            List.countP_cons, List.countP_append]
  · cases b <;>
      simp [create_project_cmds, isKillCmd, List.countP_cons, List.countP_append]

/-- Claim C5, counterexample: for the message `"hi"` the shell hands the
multiplexer the literal key text `"hi C-m"` — the message with `" C-m"`
appended — rather than exactly `"hi"`. -/
theorem project_message_appends_cm :
    shellWords (send_to_project_tmux "claude_project_demo" "hi") =
      ["tmux", "send-keys", "-t", "claude_project_demo", "hi C-m", "C-m"] ∧
    "hi C-m" ≠ "hi" := by
  constructor
  · decide
  · decide

/-- Claim C5, amended: for every message, the built command line parses into
the multiplexer call whose literal key argument is the message text with a
literal `" C-m"` suffix appended, followed by exactly one execute signal;
the quote escaping does make the (suffixed) message reach the shell layer
literally. -/
theorem send_to_project_tmux_words (name m : String)
    (hname : ∀ c ∈ name.data, ¬ c = squote ∧ ¬ c = bslash ∧ ¬ c = ' ')
    (hne : name ≠ "") :
    shellWords (send_to_project_tmux name m) =
      ["tmux", "send-keys", "-t", name, m ++ " C-m", "C-m"] := by
  have hdata : (send_to_project_tmux name m).data =
      "tmux send-keys -t ".data ++ (name.data ++ (' ' :: (squote ::
        (escSQ m.data ++ (" C-m".data ++ (squote :: " C-m".data)))))) := by
    simp [send_to_project_tmux, escapeQuotes, sqS, String.data_append]
  have hnd : name.data ≠ [] := by
    intro hq
    have h2 : (⟨name.data⟩ : String) = ⟨[]⟩ := congrArg (fun l => (⟨l⟩ : String)) hq
    rw [strMkData] at h2
    exact hne h2
  have hcm : ∀ c ∈ (" C-m").data, ¬ c = squote := by decide
  have hacc : m.data ++ (" C-m").data ≠ [] := by
    intro hq
    rcases List.append_eq_nil.mp hq with ⟨_, h2⟩
    simp at h2
  have hlast : (" C-m").data = ' ' :: "C-m".data := by decide
  rw [shellWords, hdata, shellSplit_prefix,
      shellSplit_plain name.data hname [] _,
      List.nil_append,
      shellSplit_space _ _ hnd,
      shellSplit_openq,
      shellSplit_escSQ m.data [] _,
      List.nil_append,
      shellSplit_quoted _ hcm m.data _,
      shellSplit_closeq]
  rw [hlast, shellSplit_space _ _ (by rw [← hlast]; exact hacc)]
  rw [(by decide : shellSplit [] false false ("C-m".data) = [['C', '-', 'm']])]
  have e1 : (⟨m.data ++ ' ' :: "C-m".data⟩ : String) = m ++ " C-m" := by
    rw [← hlast, ← String.data_append, strMkData]
  have e2 : (⟨['C', '-', 'm']⟩ : String) = "C-m" := rfl
  simp [strMkData, e1, e2]

/-- Claim C5, witness: the amended statement at the concrete project session
`"claude_project_p1"` and message `"echo it"`. -/
theorem send_to_project_tmux_words_witness :
    shellWords (send_to_project_tmux "claude_project_p1" "echo it") =
      ["tmux", "send-keys", "-t", "claude_project_p1", "echo it" ++ " C-m", "C-m"] :=
  send_to_project_tmux_words "claude_project_p1" "echo it" (by decide) (by decide)

theorem user_poller_loop_static (m u c : String) (h : monitor_capture m u = c) (n : Nat) :
    user_poller_loop c (List.replicate n ⟨true, some (m, u)⟩) = ([], false) := by
  induction n with
  | zero => rfl
  | succ k ih => simp [List.replicate, user_poller_loop, h, ih]

/-- Claim C6: the user-session poller broadcasts the first capture
immediately, and a tick publishes exactly when the captured snapshot differs
from the last broadcast one — so a static snapshot source yields exactly the
one initial publish over any number of ticks. -/
theorem monitor_initial_and_changed_only (m u last : String) (n : Nat) (rest : List UserTick) :
    monitor_run (m, u) (List.replicate n ⟨true, some (m, u)⟩) = [monitor_capture m u] ∧
    (monitor_capture m u = last →
      (user_poller_loop last (⟨true, some (m, u)⟩ :: rest)).1 =
        (user_poller_loop last rest).1) ∧
    (monitor_capture m u ≠ last →
      (user_poller_loop last (⟨true, some (m, u)⟩ :: rest)).1 =
        monitor_capture m u :: (user_poller_loop (monitor_capture m u) rest).1) := by
  refine ⟨?_, ?_, ?_⟩
  · simp [monitor_run, user_poller_loop_static m u _ rfl n]
  · intro h; simp [user_poller_loop, h]
  · intro h; simp [user_poller_loop, h]

/-- Claim C6, witness: a static 12-character snapshot over 5 ticks produces
exactly the initial broadcast, and a changed snapshot is broadcast. -/
theorem monitor_initial_and_changed_only_witness :
    monitor_run ("0123456789ab", "") (List.replicate 5 ⟨true, some ("0123456789ab", "")⟩) =
      [monitor_capture "0123456789ab" ""] ∧
    (user_poller_loop "zzz" [⟨true, some ("0123456789ab", "")⟩]).1 =
      monitor_capture "0123456789ab" "" ::
        (user_poller_loop (monitor_capture "0123456789ab" "") []).1 :=
  ⟨(monitor_initial_and_changed_only "0123456789ab" "" "zzz" 5 []).1,
   (monitor_initial_and_changed_only "0123456789ab" "" "zzz" 5 []).2.2 (by decide)⟩

theorem user_poller_no_exit (uticks : List UserTick) :
    ∀ last, (∀ t ∈ uticks, t.registered = true) → (user_poller_loop last uticks).2 = false := by
  induction uticks with
  | nil => intro last _; rfl
  | cons t rest ih =>
    intro last h
    have ht := h t (List.mem_cons_self t rest)
    have hr : ∀ t' ∈ rest, t'.registered = true := fun t' m => h t' (List.mem_cons_of_mem t m)
    cases t with
    | mk reg cap =>
      simp at ht; subst ht
      cases cap with
      | none => simpa [user_poller_loop] using ih last hr
      | some p =>
        obtain ⟨m, u⟩ := p
        by_cases hc : monitor_capture m u = last
        · simpa [user_poller_loop, hc] using ih last hr
        · simpa [user_poller_loop, hc] using ih (monitor_capture m u) hr

theorem user_poller_exit_reason (uticks : List UserTick) :
    ∀ last, (user_poller_loop last uticks).2 = true → ∃ t ∈ uticks, t.registered = false := by
  induction uticks with
  | nil => intro last h; simp [user_poller_loop] at h
  | cons t rest ih =>
    intro last h
    cases t with
    | mk reg cap =>
      cases reg with
      | false => exact ⟨⟨false, cap⟩, List.mem_cons_self _ _, rfl⟩
      | true =>
        cases cap with
        | none =>
          obtain ⟨t', ht', hreg⟩ := ih last (by simpa [user_poller_loop] using h)
          exact ⟨t', List.mem_cons_of_mem _ ht', hreg⟩
        | some p =>
          obtain ⟨m, u⟩ := p
          by_cases hc : monitor_capture m u = last
          · obtain ⟨t', ht', hreg⟩ := ih last (by simpa [user_poller_loop, hc] using h)
            exact ⟨t', List.mem_cons_of_mem _ ht', hreg⟩
          · obtain ⟨t', ht', hreg⟩ :=
              ih (monitor_capture m u) (by simpa [user_poller_loop, hc] using h)
            exact ⟨t', List.mem_cons_of_mem _ ht', hreg⟩

theorem project_poller_no_exit (pticks : List ProjTick) (name : String) :
    ∀ prev, (∀ t ∈ pticks, t.probe ≠ some false) →
      (project_poller_loop name prev pticks).2 = false := by
  induction pticks with
  | nil => intro prev _; rfl
  | cons t rest ih =>
    intro prev h
    have ht := h t (List.mem_cons_self t rest)
    have hr : ∀ t' ∈ rest, t'.probe ≠ some false := fun t' m => h t' (List.mem_cons_of_mem t m)
    cases t with
    | mk reg probe cap =>
      cases probe with
      | none => simpa [project_poller_loop] using ih prev hr
      | some b =>
        cases b with
        | false => simp at ht
        | true =>
          cases cap with
          | none => simpa [project_poller_loop] using ih prev hr
          | some raw =>
            by_cases hc : get_project_tmux_output name raw = prev
            · simpa [project_poller_loop, hc] using ih prev hr
            · simpa [project_poller_loop, hc] using ih (get_project_tmux_output name raw) hr

theorem project_poller_exit_reason (pticks : List ProjTick) (name : String) :
    ∀ prev, (project_poller_loop name prev pticks).2 = true →
      ∃ t ∈ pticks, t.probe = some false := by
  induction pticks with
  | nil => intro prev h; simp [project_poller_loop] at h
  | cons t rest ih =>
    intro prev h
    cases t with
    | mk reg probe cap =>
      cases probe with
      | none =>
        obtain ⟨t', ht', hp⟩ := ih prev (by simpa [project_poller_loop] using h)
        exact ⟨t', List.mem_cons_of_mem _ ht', hp⟩
      | some b =>
        cases b with
        | false => exact ⟨⟨reg, some false, cap⟩, List.mem_cons_self _ _, rfl⟩
        | true =>
          cases cap with
          | none =>
            obtain ⟨t', ht', hp⟩ := ih prev (by simpa [project_poller_loop] using h)
            exact ⟨t', List.mem_cons_of_mem _ ht', hp⟩
          | some raw =>
            by_cases hc : get_project_tmux_output name raw = prev
            · obtain ⟨t', ht', hp⟩ := ih prev (by simpa [project_poller_loop, hc] using h)
              exact ⟨t', List.mem_cons_of_mem _ ht', hp⟩
            · obtain ⟨t', ht', hp⟩ :=
                ih (get_project_tmux_output name raw) (by simpa [project_poller_loop, hc] using h)
              exact ⟨t', List.mem_cons_of_mem _ ht', hp⟩

/-- Claim C7, counterexample: a project-session poller stops on a tick whose
`has-session` probe reports the backing session gone even though the backing
name is still in the `project_sessions` registry — its exit condition is the
probe, not registry presence. -/
theorem project_poller_exit_counterexample :
    (project_poller_loop "claude_project_demo" "" [⟨true, some false, none⟩]).2 = true ∧
    (⟨true, some false, none⟩ : ProjTick).inRegistry = true :=
  ⟨rfl, rfl⟩

/-- Claim C7, amended: a user-session poller loop exits exactly when a tick
finds the session removed from the registry, and errors never terminate it;
a project-session poller loop exits exactly when a tick's `has-session`
probe reports the backing session gone (the registry is never consulted),
and errors never terminate it either. -/
theorem poller_exit_conditions (last prev name : String)
    (uticks : List UserTick) (pticks : List ProjTick) :
    ((∀ t ∈ uticks, t.registered = true) → (user_poller_loop last uticks).2 = false) ∧
    ((user_poller_loop last uticks).2 = true → ∃ t ∈ uticks, t.registered = false) ∧
    ((∀ t ∈ pticks, t.probe ≠ some false) → (project_poller_loop name prev pticks).2 = false) ∧
    ((project_poller_loop name prev pticks).2 = true → ∃ t ∈ pticks, t.probe = some false) :=
  ⟨user_poller_no_exit uticks last, user_poller_exit_reason uticks last,
   project_poller_no_exit pticks name prev, project_poller_exit_reason pticks name prev⟩

/-- Claim C7, witness: error ticks (capture exceptions) leave both pollers
running. -/
theorem poller_exit_conditions_witness :
    (user_poller_loop "" [⟨true, none⟩]).2 = false ∧
    (project_poller_loop "s" "" [⟨true, some true, none⟩]).2 = false :=
  ⟨(poller_exit_conditions "" "" "s" [⟨true, none⟩] []).1 (by decide),
   (poller_exit_conditions "" "" "s" [] [⟨true, some true, none⟩]).2.2.1 (by decide)⟩

theorem lookupKey_none_of_countKey_zero {α : Type} (l : List (String × α)) (k : String)
    (h : countKey k l = 0) : lookupKey l k = none := by
  induction l with
  | nil => rfl
  | cons p rest ih =>
    rw [countKey, List.countP_cons] at h
    by_cases hk : p.1 = k
    · simp [hk] at h
    · cases p with
      | mk k' v =>
        simp at hk
        simp [lookupKey, hk]
        exact ih (by rw [countKey]; omega)

theorem countKey_append_self {α : Type} (l : List (String × α)) (k : String) (v : α) :
    countKey k (l ++ [(k, v)]) = countKey k l + 1 := by
  simp [countKey, List.countP_append]

theorem handle_join_threads (st : ServerState) (s c : String) :
    (handle_join st s c).output_threads =
      if (lookupKey st.output_threads s).isSome then st.output_threads
      else st.output_threads ++ [(s, c)] := by
  by_cases hmem : s ∈ st.active_sessions <;>
    by_cases hl : (lookupKey st.output_threads s).isSome = true <;>
      simp [handle_join, hmem, hl]

theorem handle_join_project_threads (st : ServerState) (p c : String) :
    (handle_join_project st p c).output_threads =
      if (lookupKey st.output_threads (projectSessionName p)).isSome then st.output_threads
      else st.output_threads ++ [(projectSessionName p, c)] := by
  by_cases hl : (lookupKey st.output_threads (projectSessionName p)).isSome = true <;>
    simp [handle_join_project, hl]

/-- Claim C8: starting from a registry with no poller for the given user
session or project, two join requests (user or project) leave exactly one
poller handle recorded for that identifier — the second start is a no-op. -/
theorem at_most_one_poller (st : ServerState) (s p c1 c2 : String)
    (h1 : countKey s st.output_threads = 0)
    (h2 : countKey (projectSessionName p) st.output_threads = 0) :
    countKey s (handle_join (handle_join st s c1) s c2).output_threads = 1 ∧
    countKey (projectSessionName p)
      (handle_join_project (handle_join_project st p c1) p c2).output_threads = 1 := by
  constructor
  · have hl1 := lookupKey_none_of_countKey_zero st.output_threads s h1
    have step1 : (handle_join st s c1).output_threads = st.output_threads ++ [(s, c1)] := by
      rw [handle_join_threads, hl1]; rfl
    have hl2 : lookupKey (handle_join st s c1).output_threads s = some c1 := by
      rw [step1]; exact lookupKey_append_self _ _ _ hl1
    rw [handle_join_threads, hl2]
    simp [step1, countKey_append_self, h1]
  · have hl1 := lookupKey_none_of_countKey_zero st.output_threads (projectSessionName p) h2
    have step1 : (handle_join_project st p c1).output_threads =
        st.output_threads ++ [(projectSessionName p, c1)] := by
      rw [handle_join_project_threads, hl1]; rfl
    have hl2 : lookupKey (handle_join_project st p c1).output_threads
        (projectSessionName p) = some c1 := by
      rw [step1]; exact lookupKey_append_self _ _ _ hl1
    rw [handle_join_project_threads, hl2]
    simp [step1, countKey_append_self, h2]

/-- Claim C8, witness: from the empty server, double joins for session
`"s1"` and project `"p1"` each leave exactly one poller handle. -/
theorem at_most_one_poller_witness :
    countKey "s1" (handle_join (handle_join emptyServer "s1" "c1") "s1" "c2").output_threads
      = 1 ∧
    countKey (projectSessionName "p1")
      (handle_join_project (handle_join_project emptyServer "p1" "c1") "p1" "c2").output_threads
      = 1 :=
  at_most_one_poller emptyServer "s1" "p1" "c1" "c2" (by decide) (by decide)

/-- Claim C9: on a health check of an existing project session, a snapshot
carrying a liveness marker triggers no command at all, and a snapshot
lacking the markers triggers a command sequence containing the launch
command exactly once, ending with that launch command followed by the fixed
3-second settle delay before control returns. -/
theorem liveness_relaunch_once (project_id captured : String) (b : Bool) :
    (claudeCodeActive captured = true → project_health_check project_id captured b = []) ∧
    (claudeCodeActive captured = false →
      (project_health_check project_id captured b).countP isLaunchCmd = 1 ∧
      ∃ pre, project_health_check project_id captured b =
        pre ++ [TmuxCmd.sendKeys (projectSessionName project_id) launchKeys,
                TmuxCmd.settle 3]) := by
  constructor
  · intro h; simp [project_health_check, h]
  · intro h
    constructor
    · cases b <;>
        simp [project_health_check, h, relaunchCmds, isLaunchCmd,
              List.countP_cons, List.countP_append,
              cd_ne_launch, export_name_ne_launch, export_path_ne_launch,
              export_ctx_ne_launch]
    · refine ⟨[TmuxCmd.sendKeys (projectSessionName project_id)
          ("cd " ++ projectPath project_id),
        TmuxCmd.sendKeys (projectSessionName project_id)
          ("export PROJECT_NAME=" ++ project_id),
        TmuxCmd.sendKeys (projectSessionName project_id)
          ("export PROJECT_PATH=" ++ projectPath project_id)] ++
        (if b then
          [TmuxCmd.sendKeys (projectSessionName project_id)
            ("export CLAUDE_PROJECT_CONTEXT=\"" ++ projectPath project_id ++ "/CLAUDE.md\"")]
         else []), ?_⟩
      cases b <;> simp [project_health_check, h, relaunchCmds]

/-- Claim C9, witness: a snapshot containing `"cwd:"` yields no command, and
a marker-less snapshot yields exactly one launch command. -/
theorem liveness_relaunch_once_witness :
    project_health_check "demo" "cwd: /root/docker/apps/demo" true = [] ∧
    (project_health_check "demo" "blank pane" false).countP isLaunchCmd = 1 :=
  ⟨(liveness_relaunch_once "demo" "cwd: /root/docker/apps/demo" true).1 (by decide),
   ((liveness_relaunch_once "demo" "blank pane" false).2 (by decide)).1⟩

/-- Claim C10: the monitor's main-handle capture reads the same shared pane
for every user session id, and creating a user session for any id resets
that pane to the fixed setup content — independently of the previous state
and of every id involved — so the capture basis of every other active user
session is erased by the creation. -/
theorem shared_main_pane_frame_effect (st st2 : TmuxState) (s1 s1a s2 : String) :
    monitor_main_capture st s1 = monitor_main_capture st s1a ∧
    monitor_main_capture (create_tmux_session s2 st) s1 = mainSetupContent ∧
    monitor_main_capture (create_tmux_session s2 st) s1 =
      monitor_main_capture (create_tmux_session s2 st2) s1a := by
  refine ⟨rfl, create_resets_main s2 st, ?_⟩
  show captureContent _ mainSession = captureContent _ mainSession
  rw [create_resets_main s2 st, create_resets_main s2 st2]
